import Mathlib

/-!
Verification development for the WindowServo repository
(`RaspberryPi_ws/outputHandler.py`, `RaspberryPi_ws/voskCore.py`).

The Python source is shallowly embedded: pure functions become Lean
functions, the stateful speech engine becomes explicit state passing over a
record of its flags, and the retry loop of the remote-inference handler
becomes recursion over the list of per-attempt HTTP outcomes.  Machine
behaviour that the claims depend on (Python `json.loads`, `str.strip`,
`str.lower`, `int(...)` truncation, the greedy regex `\{.*\}` with DOTALL)
is reproduced faithfully; behaviour the claims never exercise (e.g. the
exact `str()` rendering of float or container values used as an `action`)
is approximated and documented at the definition.
-/

/-! ## Python string primitives -/

/-- Whitespace characters stripped by Python `str.strip()` (ASCII subset;
the source only ever strips ASCII text). -/
def isPyWs (c : Char) : Bool :=
  c = ' ' || c = '\t' || c = '\n' || c = '\r' || c = '\x0b' || c = '\x0c'

/-- Drop leading Python whitespace. -/
def dropLeadWs : List Char → List Char
  | [] => []
  | c :: cs => if isPyWs c then dropLeadWs cs else c :: cs

/-- Python `str.strip()` on a character list. -/
def pyStripList (cs : List Char) : List Char :=
  (dropLeadWs (dropLeadWs cs).reverse).reverse

/-- Python `str.strip()`. -/
def pyStrip (s : String) : String :=
  String.mk (pyStripList s.toList)

/-- Python `str.lower()` (ASCII lowercasing; the commands in the source are
ASCII). -/
def pyLower (s : String) : String :=
  String.mk (s.toList.map Char.toLower)

/-! ## JSON values, mirroring what Python `json.loads` can return -/

/-- A decimal number literal as written in the JSON text.  Python turns a
literal without fraction and exponent into an (exact, arbitrary-precision)
`int`, any other literal into a `float`; `isInt` records which. -/
structure JsonNum where
  neg : Bool
  intDigits : List Nat
  fracDigits : List Nat
  expVal : Int
  isInt : Bool
deriving DecidableEq, Repr

/-- The value space of Python `json.loads`: `None`, `bool`, `int`/`float`
(as the decimal literal), `float('nan')`/`float('inf')` (Python's `json`
accepts `NaN`/`Infinity`/`-Infinity`), `str`, `list`, `dict` (field order
kept; duplicate keys resolved by `lookupLast` below, as Python's dict
construction keeps the last value). -/
inductive Json where
  | null
  | bool (b : Bool)
  | num (n : JsonNum)
  | nan
  | inf (neg : Bool)
  | str (s : String)
  | arr (elems : List Json)
  | obj (fields : List (String × Json))
deriving Repr

/-- Decimal digit value of a character, if any. -/
def digitVal (c : Char) : Option Nat :=
  if '0' ≤ c ∧ c ≤ '9' then some (c.toNat - '0'.toNat) else none

/-- Hexadecimal digit value of a character, if any. -/
def hexVal (c : Char) : Option Nat :=
  if '0' ≤ c ∧ c ≤ '9' then some (c.toNat - '0'.toNat)
  else if 'a' ≤ c ∧ c ≤ 'f' then some (c.toNat - 'a'.toNat + 10)
  else if 'A' ≤ c ∧ c ≤ 'F' then some (c.toNat - 'A'.toNat + 10)
  else none

/-- JSON insignificant whitespace. -/
def isJsonWs (c : Char) : Bool :=
  c = ' ' || c = '\t' || c = '\n' || c = '\r'

/-- Skip JSON whitespace. -/
def skipWs : List Char → List Char
  | [] => []
  | c :: cs => if isJsonWs c then skipWs cs else c :: cs

/-- Greedily consume decimal digits. -/
def takeDigits : List Char → List Nat × List Char
  | [] => ([], [])
  | c :: cs =>
    match digitVal c with
    | some d => let r := takeDigits cs; (d :: r.1, r.2)
    | none => ([], c :: cs)

/-- Parse the body of a JSON string literal after the opening quote,
per Python's strict decoder: escapes are honoured, raw control characters
are rejected.  A `\\uXXXX` escape becomes the corresponding code point
(surrogate-pair combination is not modelled; no claim exercises it). -/
def parseStringBody : Nat → List Char → List Char → Option (String × List Char)
  | 0, _, _ => none
  | _ + 1, [], _ => none
  | fuel + 1, c :: rest, acc =>
    if c = '"' then some (String.mk acc.reverse, rest)
    else if c = '\\' then
      match rest with
      | [] => none
      | e :: rest2 =>
        if e = '"' then parseStringBody fuel rest2 ('"' :: acc)
        else if e = '\\' then parseStringBody fuel rest2 ('\\' :: acc)
        else if e = '/' then parseStringBody fuel rest2 ('/' :: acc)
        else if e = 'b' then parseStringBody fuel rest2 ('\x08' :: acc)
        else if e = 'f' then parseStringBody fuel rest2 ('\x0c' :: acc)
        else if e = 'n' then parseStringBody fuel rest2 ('\n' :: acc)
        else if e = 'r' then parseStringBody fuel rest2 ('\r' :: acc)
        else if e = 't' then parseStringBody fuel rest2 ('\t' :: acc)
        else if e = 'u' then
          match rest2 with
          | h1 :: h2 :: h3 :: h4 :: rest3 =>
            match hexVal h1, hexVal h2, hexVal h3, hexVal h4 with
            | some a, some b, some c', some d =>
              parseStringBody fuel rest3
                (Char.ofNat (((a * 16 + b) * 16 + c') * 16 + d) :: acc)
            | _, _, _, _ => none
          | _ => none
        else none
    else if c.toNat < 0x20 then none
    else parseStringBody fuel rest (c :: acc)

/-- Parse a JSON number literal (after Python's `NUMBER_RE` grammar:
`-? (0 | [1-9][0-9]*) (. [0-9]+)? ([eE][+-]?[0-9]+)?`). -/
def parseNumber (cs : List Char) : Option (JsonNum × List Char) :=
  let signed := match cs with
    | '-' :: rest => (true, rest)
    | _ => (false, cs)
  match signed.2 with
  | [] => none
  | c :: rest =>
    match digitVal c with
    | none => none
    | some d =>
      let intPart : List Nat × List Char :=
        if d = 0 then ([0], rest)
        else let r := takeDigits rest; (d :: r.1, r.2)
      let fracPart : Option (List Nat × List Char) :=
        match intPart.2 with
        | '.' :: fr =>
          let r := takeDigits fr
          if r.1 = [] then none else some (r.1, r.2)
        | other => some ([], other)
      match fracPart with
      | none => none
      | some (frac, afterFrac) =>
        let hasFrac := frac ≠ []
        let expPart : Option (Option Int × List Char) :=
          match afterFrac with
          | e :: er =>
            if e = 'e' ∨ e = 'E' then
              let esigned := match er with
                | '+' :: t => (false, t)
                | '-' :: t => (true, t)
                | t => (false, t)
              let r := takeDigits esigned.2
              if r.1 = [] then none
              else
                let mag : Nat := r.1.foldl (fun a dd => a * 10 + dd) 0
                some (some (if esigned.1 then -(mag : Int) else (mag : Int)), r.2)
            else some (none, e :: er)
          | [] => some (none, [])
        match expPart with
        | none => none
        | some (expv, restFinal) =>
          some (⟨signed.1, intPart.1, frac, expv.getD 0,
                 !hasFrac && expv.isNone⟩, restFinal)

/-- Does the list start with the given literal characters? -/
def startsWithLit : List Char → List Char → Option (List Char)
  | [], cs => some cs
  | _, [] => none
  | l :: ls, c :: cs => if c = l then startsWithLit ls cs else none

mutual

/-- Recursive-descent JSON value parser, mirroring Python's `json.loads`
decoder (fuel-indexed; Python likewise bounds nesting by its recursion
limit).  Returns the value and the unconsumed remainder. -/
def parseValue : Nat → List Char → Option (Json × List Char)
  | 0, _ => none
  | fuel + 1, cs =>
    match skipWs cs with
    | [] => none
    | c :: rest =>
      if c = 'n' then
        match startsWithLit ['u', 'l', 'l'] rest with
        | some r => some (Json.null, r)
        | none => none
      else if c = 't' then
        match startsWithLit ['r', 'u', 'e'] rest with
        | some r => some (Json.bool true, r)
        | none => none
      else if c = 'f' then
        match startsWithLit ['a', 'l', 's', 'e'] rest with
        | some r => some (Json.bool false, r)
        | none => none
      else if c = 'N' then
        match startsWithLit ['a', 'N'] rest with
        | some r => some (Json.nan, r)
        | none => none
      else if c = 'I' then
        match startsWithLit ['n', 'f', 'i', 'n', 'i', 't', 'y'] rest with
        | some r => some (Json.inf false, r)
        | none => none
      else if c = '-' then
        match startsWithLit ['I', 'n', 'f', 'i', 'n', 'i', 't', 'y'] rest with
        | some r => some (Json.inf true, r)
        | none =>
          match parseNumber (c :: rest) with
          | some (n, r) => some (Json.num n, r)
          | none => none
      else if (digitVal c).isSome then
        match parseNumber (c :: rest) with
        | some (n, r) => some (Json.num n, r)
        | none => none
      else if c = '"' then
        match parseStringBody (rest.length + 1) rest [] with
        | some (s, r) => some (Json.str s, r)
        | none => none
      else if c = '[' then
        match skipWs rest with
        | ']' :: r => some (Json.arr [], r)
        | other => parseArrayItems fuel other []
      else if c = '{' then
        match skipWs rest with
        | '}' :: r => some (Json.obj [], r)
        | other => parseObjectItems fuel other []
      else none

/-- Parse the items of a non-empty JSON array (after `[`). -/
def parseArrayItems : Nat → List Char → List Json → Option (Json × List Char)
  | 0, _, _ => none
  | fuel + 1, cs, acc =>
    match parseValue fuel cs with
    | none => none
    | some (v, rest) =>
      match skipWs rest with
      | ',' :: r => parseArrayItems fuel r (v :: acc)
      | ']' :: r => some (Json.arr (v :: acc).reverse, r)
      | _ => none

/-- Parse the members of a non-empty JSON object (after `\x7b`). -/
def parseObjectItems : Nat → List Char → List (String × Json) →
    Option (Json × List Char)
  | 0, _, _ => none
  | fuel + 1, cs, acc =>
    match skipWs cs with
    | '"' :: ks =>
      match parseStringBody (ks.length + 1) ks [] with
      | none => none
      | some (key, afterKey) =>
        match skipWs afterKey with
        | ':' :: vs =>
          match parseValue fuel vs with
          | none => none
          | some (v, rest) =>
            match skipWs rest with
            | ',' :: r => parseObjectItems fuel r ((key, v) :: acc)
            | '}' :: r => some (Json.obj ((key, v) :: acc).reverse, r)
            | _ => none
        | _ => none
    | _ => none

end

/-- Python `json.loads`: parse one value, allow surrounding whitespace,
reject trailing data ("Extra data" error in Python ⇒ `none`). -/
def jsonLoads (s : String) : Option Json :=
  match parseValue (s.toList.length + 2) s.toList with
  | some (v, rest) => if skipWs rest = [] then some v else none
  | none => none

/-! ## Python coercions used by `parse_json_to_command` -/

/-- Value of a decimal digit list. -/
def digitsToNat (ds : List Nat) : Nat :=
  ds.foldl (fun a d => a * 10 + d) 0

/-- Truncation toward zero of a JSON number, as Python `int(x)` computes it
for the exact decimal value of the literal (`int(20.7) = 20`,
`int(-20.7) = -20`; exact for `int` literals).  Binary-float rounding of
extreme literals is not modelled. -/
def jsonNumTrunc (n : JsonNum) : Int :=
  let allDigits := digitsToNat (n.intDigits ++ n.fracDigits)
  let e : Int := n.expVal - n.fracDigits.length
  let mag : Nat :=
    if 0 ≤ e then allDigits * 10 ^ e.toNat else allDigits / 10 ^ (-e).toNat
  if n.neg then -(mag : Int) else (mag : Int)

/-- Python `int(str)` digit run, allowing single underscores between
digits as Python does. -/
def pyIntDigits : List Char → Nat → Option Nat
  | [], acc => some acc
  | c :: rest, acc =>
    match digitVal c with
    | some d => pyIntDigits rest (acc * 10 + d)
    | none =>
      if c = '_' then
        match rest with
        | r :: rs =>
          match digitVal r with
          | some d => pyIntDigits rs (acc * 10 + d)
          | none => none
        | [] => none
      else none

/-- Python `int(s)` on a string: strip whitespace, optional sign, decimal
digits; anything else raises `ValueError` (`none`). -/
def pyIntOfString (s : String) : Option Int :=
  let t := pyStripList s.toList
  let signed : Bool × List Char :=
    match t with
    | '+' :: r => (false, r)
    | '-' :: r => (true, r)
    | r => (false, r)
  match signed.2 with
  | [] => none
  | c :: _ =>
    if (digitVal c).isSome then
      match pyIntDigits signed.2 0 with
      | some v => some (if signed.1 then -(v : Int) else (v : Int))
      | none => none
    else none

/-- Python `int(x)` on a decoded JSON value: numbers truncate toward zero,
booleans are `1`/`0` (Python `bool` is an `int` subtype), numeric strings
parse, `nan`/`inf` raise (`OverflowError`/`ValueError`), and `None`, lists
and dicts raise `TypeError` — all raising cases are `none`. -/
def pyInt : Json → Option Int
  | Json.num n => some (jsonNumTrunc n)
  | Json.bool b => some (if b then 1 else 0)
  | Json.str s => pyIntOfString s
  | _ => none

/-- Rendering of a JSON number by Python `str()`: exact for `int` literals;
for float literals a plain decimal/exponent rendering that approximates
Python's shortest-repr float printing (no claim exercises a float
`action`). -/
def pyNumStr (n : JsonNum) : String :=
  if n.isInt then
    toString (jsonNumTrunc n)
  else
    (if n.neg then "-" else "")
      ++ String.mk (n.intDigits.map (fun d => Char.ofNat (d + '0'.toNat)))
      ++ "."
      ++ (if n.fracDigits = [] then "0"
          else String.mk (n.fracDigits.map (fun d => Char.ofNat (d + '0'.toNat))))
      ++ (if n.expVal = 0 then "" else "e" ++ toString n.expVal)

mutual

/-- Python `repr()` of a decoded JSON value (used by `str()` for the
elements of lists and dicts).  String quoting is approximated with plain
single quotes; no claim exercises a container-valued `action`. -/
def pyRepr : Json → String
  | Json.null => "None"
  | Json.bool b => if b then "True" else "False"
  | Json.num n => pyNumStr n
  | Json.nan => "nan"
  | Json.inf neg => if neg then "-inf" else "inf"
  | Json.str s => "'" ++ s ++ "'"
  | Json.arr xs => "[" ++ pyReprItems xs ++ "]"
  | Json.obj fs => "\x7b" ++ pyReprFields fs ++ "\x7d"

/-- Comma-separated `repr` of list elements. -/
def pyReprItems : List Json → String
  | [] => ""
  | [x] => pyRepr x
  | x :: rest => pyRepr x ++ ", " ++ pyReprItems rest

/-- Comma-separated `repr` of dict items. -/
def pyReprFields : List (String × Json) → String
  | [] => ""
  | [kv] => "'" ++ kv.1 ++ "': " ++ pyRepr kv.2
  | kv :: rest => "'" ++ kv.1 ++ "': " ++ pyRepr kv.2 ++ ", " ++ pyReprFields rest

end

/-- Python `str(x)` on a decoded JSON value: identity on strings,
`repr`-style otherwise. -/
def pyStr : Json → String
  | Json.str s => s
  | j => pyRepr j

/-- Lookup in the field list of a decoded JSON object with Python dict
semantics: a duplicated key keeps the value written last. -/
def lookupLast (fields : List (String × Json)) (k : String) : Option Json :=
  match fields with
  | [] => none
  | kv :: rest =>
    match lookupLast rest k with
    | some v => some v
    | none => if kv.1 = k then some kv.2 else none

/-! ## `SimpleESP32Handler` (outputHandler.py lines 176-359) -/

/-- `SimpleESP32Handler.parse_json_to_command` (lines 176-205):
`json.loads` the stripped text; on success read `action` (default
`'move'`) through `str(..).lower()` and `degree` (default `0`) through
`int(..)` and concatenate; any `JSONDecodeError` or other exception
(non-dict value, unconvertible degree) yields the sentinel `"move0"`. -/
def parse_json_to_command (json_response : String) : String :=
  match jsonLoads (pyStrip json_response) with
  | some (Json.obj fields) =>
    let actionVal := (lookupLast fields "action").getD (Json.str "move")
    let action := pyLower (pyStr actionVal)
    match pyInt ((lookupLast fields "degree").getD
        (Json.num ⟨false, [0], [], 0, true⟩)) with
    | some degree => action ++ toString degree
    | none => "move0"
  | some _ => "move0"
  | none => "move0"

/-- Index of the last occurrence of a character. -/
def lastIdxOf (c : Char) (cs : List Char) : Option Nat :=
  match cs.reverse.findIdx? (fun x => x = c) with
  | some k => some (cs.length - 1 - k)
  | none => none

/-- `re.search(r'\x7b.*\x7d', text, re.DOTALL)` (line 333): with a greedy
`.*` and DOTALL this matches from the first `\x7b` to the last `\x7d`
(provided that `\x7d` comes after the `\x7b`), and `send` uses
`group(0)`, the whole matched span. -/
def jsonMatch (s : String) : Option String :=
  let cs := s.toList
  match cs.findIdx? (fun x => x = '{') with
  | none => none
  | some i =>
    let tail := cs.drop i
    match lastIdxOf '}' tail with
    | some j => if 1 ≤ j then some (String.mk (tail.take (j + 1))) else none
    | none => none

/-- The `command_to_send` value computed by `SimpleESP32Handler.send`
(lines 329-348) from the already-stripped input text: if a `\x7b...\x7d`
span is found it is translated by `parse_json_to_command`, and a falsy or
sentinel result falls back to the whole text; with no span the text itself
is the command. -/
def espCommandToSend (text : String) : String :=
  match jsonMatch text with
  | some span =>
    let c := parse_json_to_command span
    if c = "" ∨ c = "move0" then text else c
  | none => text

/-- `SimpleESP32Handler.send` (lines 318-359), reduced to what it hands to
the serial transmit routine: `some cmd` means `send_command(cmd)` is
invoked (line 356), `none` means transmission is skipped and `send`
returns `False` (lines 357-359).  The final guard transmits only a
non-empty command different from the sentinel. -/
def espDecide (raw : String) : Option String :=
  let text := pyStrip raw
  let c := espCommandToSend text
  if c ≠ "" ∧ c ≠ "move0" then some c else none

/-! ## `OpenAIAPIHandler.send` (outputHandler.py lines 402-486) -/

/-- Outcome of one HTTP attempt inside the retry loop, one constructor per
branch of the source's `try`/`except` ladder: a 200 with a well-formed
body, a 401, a 429, any other non-2xx status, `requests` timeout, other
`requests` exception, or a `json.JSONDecodeError` while reading the
body. -/
inductive Status where
  | ok200
  | auth401
  | rate429
  | httpOther
  | timeoutExc
  | requestExc
  | jsonDecodeExc
deriving DecidableEq, Repr

/-- Observable behaviour of one `OpenAIAPIHandler.send` call: how many HTTP
attempts were made, the `time.sleep` durations in order, the boolean an
`esp32_handler.send(ai_response)` forwarding returned (if a 200 was
reached), and the value `send` returns. -/
structure APISendResult where
  attempts : Nat
  delays : List Nat
  forwardResult : Option Bool
  retval : Bool
deriving DecidableEq, Repr

/-- The retry loop `for attempt in range(self.retry_count)` (lines
430-483), driven by the list of per-attempt outcomes (the list length
plays the role of `retry_count`; element `i` is what attempt `i` would
observe).  `espOK` is the boolean the downstream
`esp32_handler.send(ai_response)` would return on a 200.  A 200 returns
`True` at once (line 452) regardless of `espOK`; a 401 returns `False` at
once (line 456); every other outcome falls through to the backoff
`time.sleep(2 ** attempt)` (lines 481-483), executed only when this is not
the final attempt, and exhaustion returns `False` (line 486). -/
def apiLoop (espOK : Bool) : Nat → List Status → APISendResult
  | _, [] => ⟨0, [], none, false⟩
  | attempt, st :: rest =>
    match st with
    | Status.ok200 => ⟨1, [], some espOK, true⟩
    | Status.auth401 => ⟨1, [], none, false⟩
    | _ =>
      match rest with
      | [] => ⟨1, [], none, false⟩
      | r :: rs =>
        let tail := apiLoop espOK (attempt + 1) (r :: rs)
        ⟨tail.attempts + 1, 2 ^ attempt :: tail.delays,
         tail.forwardResult, tail.retval⟩

/-- `OpenAIAPIHandler.send` for a given schedule of attempt outcomes. -/
def apiSend (resp : List Status) (espOK : Bool) : APISendResult :=
  apiLoop espOK 0 resp

/-- Modelled from the spec: `send` succeeds exactly when, scanning the
attempt outcomes in order, a 200 occurs before any 401 and before the
attempts run out. -/
def apiSpecSuccess : List Status → Bool
  | [] => false
  | Status.ok200 :: _ => true
  | Status.auth401 :: _ => false
  | _ :: rest => apiSpecSuccess rest

/-! ## `MultiOutputHandler.send` (outputHandler.py lines 503-516) -/

/-- What one registered sink does when its `send()` is invoked for an
event: return a boolean, or raise. -/
inductive SinkOutcome where
  | ok (b : Bool)
  | raises
deriving DecidableEq, Repr

/-- The boolean appended to `results` for one sink: its return value, or
`False` when the `except` branch caught its exception (lines 511-513). -/
def outcomeResult : SinkOutcome → Bool
  | SinkOutcome.ok b => b
  | SinkOutcome.raises => false

/-- The `results` list built by the `for handler in self.handlers` loop
(lines 505-513): every sink is invoked in order, exceptions are caught and
recorded as `False`. -/
def multiSendResults : List SinkOutcome → List Bool
  | [] => []
  | o :: rest => outcomeResult o :: multiSendResults rest

/-- `MultiOutputHandler.send`'s return value `any(results)` (line 516). -/
def multiSendRet (sinks : List SinkOutcome) : Bool :=
  (multiSendResults sinks).any id

/-! ## `ConsoleOutputHandler` (outputHandler.py lines 20-42) -/

/-- Constructor flags of `ConsoleOutputHandler` (line 23). -/
structure ConsoleCfg where
  showPartialFlag : Bool
  showFinal : Bool
deriving DecidableEq, Repr

/-- `metadata.get('type', 'unknown') if metadata else 'unknown'`
(line 30); metadata is modelled as an optional association list. -/
def consoleMsgType (metadata : Option (List (String × String))) : String :=
  match metadata with
  | none => "unknown"
  | some md =>
    match md.lookup "type" with
    | some t => t
    | none => "unknown"

/-- Whether the `if`/`elif` ladder of lines 33-38 prints anything for the
given message type. -/
def consoleDisplays (cfg : ConsoleCfg) (msgType : String) : Bool :=
  if msgType = "partial" && cfg.showPartialFlag then true
  else if msgType = "final" && cfg.showFinal then true
  else if msgType = "complete" then true
  else false

/-- `ConsoleOutputHandler.send` (lines 27-42): first component is whether
anything was displayed, second is the returned boolean — `True` on every
path that completes the `try` block (line 40); the `except` branch exists
only for I/O failures of `print`, outside this model. -/
def consoleSend (cfg : ConsoleCfg) (_text : String)
    (metadata : Option (List (String × String))) : Bool × Bool :=
  (consoleDisplays cfg (consoleMsgType metadata), true)

/-! ## `VoskSTTEngine` (voskCore.py) -/

/-- The cross-thread state of `VoskSTTEngine`: the flags guarded by
`_state_lock`, the `threading.Event` `_stop_event`, whether the pyaudio
stream is started, and whether the auto-stop timer is armed
(`auto_stop_enabled` models `auto_stop_duration is not None`).  `initDone`
is the source's `is_initialized`. -/
structure EngineCore where
  initDone : Bool
  is_listening : Bool
  is_running : Bool
  shutdown_requested : Bool
  stop_event : Bool
  stream_active : Bool
  auto_stop_enabled : Bool
  timer_armed : Bool
deriving DecidableEq, Repr

/-- Engine state right after `_initialize` (lines 61-97): initialized, not
listening, stream opened but stopped (line 86), with an auto-stop duration
configured as in `STWconfig` (`auto_stop_seconds: 8`). -/
def readyState : EngineCore :=
  ⟨true, false, false, false, false, false, true, false⟩

/-- `start_listening` (lines 157-196): raises if uninitialized and returns
unchanged if already listening (both modelled as an identity step with no
emission); otherwise clears the shutdown/stop flags, marks listening and
running, restarts the stream (lines 177-178), arms the timer when an
auto-stop duration is set, and emits `"listening_started"`.  The second
component lists the `on_status_change` emissions. -/
def start_listening (s : EngineCore) : EngineCore × List String :=
  if !s.initDone then (s, [])
  else if s.is_listening then (s, [])
  else
    ({ s with shutdown_requested := false, stop_event := false,
              is_listening := true, is_running := true,
              stream_active := true, timer_armed := s.auto_stop_enabled },
     ["listening_started"])

/-- `stop_listening` (lines 198-231): returns at once when not listening
(lines 200-202); otherwise sets `_shutdown_requested`, clears
`is_listening`, sets `_stop_event`, stops the stream (lines 210-211),
cancels the timer, joins the capture thread, flushes the final result, and
emits `"listening_stopped"`. -/
def stop_listening (s : EngineCore) : EngineCore × List String :=
  if !s.is_listening then (s, [])
  else
    ({ s with shutdown_requested := true, is_listening := false,
              stop_event := true, stream_active := false,
              timer_armed := false },
     ["listening_stopped"])

/-- `_auto_stop_callback` (lines 149-155): under the state lock, if still
listening and no shutdown was requested it only sets `_stop_event`; it
never touches `is_listening`, the stream, or any other engine state. -/
def auto_stop_callback (s : EngineCore) : EngineCore :=
  if s.is_listening && !s.shutdown_requested then
    { s with stop_event := true }
  else s

/-- `cleanup` (lines 297-336): forces the flags down, sets the stop event,
cancels the timer, joins, stops and closes the stream, and emits
`"cleaned_up"`. -/
def engineCleanup (s : EngineCore) : EngineCore × List String :=
  ({ s with shutdown_requested := true, is_running := false,
            is_listening := false, stop_event := true,
            timer_armed := false, stream_active := false },
   ["cleaned_up"])

/-- How one iteration of `_audio_processing_loop` (lines 245-295) ends,
given the shared state it observes and whether the read/decode raised a
non-overflow exception this iteration. -/
inductive LoopOutcome where
  | exitStopEvent
  | exitFlags
  | exitError
  | continues
deriving DecidableEq, Repr

/-- One iteration of the capture loop: line 250 breaks when `_stop_event`
is set; lines 254-256 break when `is_running`/`is_listening` are down or
shutdown was requested; a non-overflow exception breaks at line 287;
otherwise the loop continues.  Crucially, neither the loop body nor its
`finally` block (line 294-295, a log only) mutates any shared engine state
or the stream: the engine state at loop exit is exactly the state the loop
last observed. -/
def loopStep (s : EngineCore) (ioFatal : Bool) : LoopOutcome :=
  if s.stop_event then LoopOutcome.exitStopEvent
  else if !s.is_running || !s.is_listening || s.shutdown_requested then
    LoopOutcome.exitFlags
  else if ioFatal then LoopOutcome.exitError
  else LoopOutcome.continues

/-! ## Helper lemmas -/

/-- The per-sink `results` list is exactly the per-sink outcomes: each
sink contributes its own entry at its own position, a raising sink
contributing `False`. -/
theorem multiSendResults_eq_map (sinks : List SinkOutcome) :
    multiSendResults sinks = sinks.map outcomeResult := by
  induction sinks with
  | nil => rfl
  | cons o rest ih => simp [multiSendResults, ih]

/-- A sink outcome contributes `true` exactly when it returned `true`. -/
theorem outcomeResult_eq_true (o : SinkOutcome) :
    outcomeResult o = true ↔ o = SinkOutcome.ok true := by
  cases o with
  | ok b => cases b <;> simp [outcomeResult]
  | raises => simp [outcomeResult]

/-- The retry loop's return value depends only on the attempt outcomes:
it is the spec-side success predicate, independently of the attempt index
and of the downstream forwarding result. -/
theorem apiLoop_retval (resp : List Status) :
    ∀ (e : Bool) (k : Nat), (apiLoop e k resp).retval = apiSpecSuccess resp := by
  induction resp with
  | nil => intro e k; rfl
  | cons st rest ih =>
    intro e k
    cases st <;> cases rest <;>
      simp [apiLoop, apiSpecSuccess] <;> exact ih e (k + 1)

/-! ## Claim theorems -/

/-- C1: for every input text given to `SimpleESP32Handler.send`, the
literal sentinel command string `"move0"` is never the command passed to
the serial transmit routine `send_command`: both the JSON-derived command
and the raw-text fallback pass through the final guard of line 355, which
transmits only a command different from the sentinel. -/
theorem c1_sentinel_filtered (raw c : String)
    (h : espDecide raw = some c) : c ≠ "move0" := by
  simp only [espDecide] at h
  split at h
  · rename_i hcond
    cases h
    exact hcond.2
  · cases h

/-- Witness for C1 at the concrete input `"open20"`. -/
theorem c1_witness :
    espDecide "open20" = some "open20" ∧ "open20" ≠ "move0" :=
  ⟨rfl, c1_sentinel_filtered "open20" "open20" rfl⟩

/-- C2 counterexample: for the input text `"\x7bbad\x7d"` the extracted
`\x7b...\x7d` span fails in the JSON path and the translator produces the
sentinel `"move0"` — but, contrary to the claim, a command IS transmitted
to the actuator for that input: `send` falls back to the raw text (line
348) and passes `"\x7bbad\x7d"` to `send_command`. -/
theorem c2_counterexample :
    jsonMatch (pyStrip "\x7bbad\x7d") = some "\x7bbad\x7d" ∧
    parse_json_to_command "\x7bbad\x7d" = "move0" ∧
    espDecide "\x7bbad\x7d" = some "\x7bbad\x7d" :=
  ⟨rfl, rfl, rfl⟩

/-- C2 amended: for every rawText whose extracted `\x7b...\x7d` span fails
in the JSON path, the translator produces the sentinel `"move0"`, and the
sentinel itself is never transmitted; but the caller does not treat the
failure as a no-op — it falls back to the whole trimmed text and transmits
that, unless the trimmed text is empty or itself equals the sentinel. -/
theorem c2_amended_fallback (raw span : String)
    (h1 : jsonMatch (pyStrip raw) = some span)
    (h2 : parse_json_to_command span = "move0") :
    espDecide raw ≠ some "move0" ∧
    espDecide raw =
      (if pyStrip raw ≠ "" ∧ pyStrip raw ≠ "move0"
       then some (pyStrip raw) else none) := by
  have hc : espCommandToSend (pyStrip raw) = pyStrip raw := by
    simp [espCommandToSend, h1, h2]
  constructor
  · intro hbad
    exact c1_sentinel_filtered raw "move0" hbad rfl
  · simp only [espDecide, hc]

/-- Witness for C2's amended theorem at the concrete input
`"\x7boops\x7d"`: the span fails to decode, the sentinel is produced, and
the raw text is transmitted instead. -/
theorem c2_witness :
    jsonMatch (pyStrip "\x7boops\x7d") = some "\x7boops\x7d" ∧
    parse_json_to_command "\x7boops\x7d" = "move0" ∧
    espDecide "\x7boops\x7d" = some "\x7boops\x7d" := by
  have h := c2_amended_fallback "\x7boops\x7d" "\x7boops\x7d" rfl rfl
  exact ⟨rfl, rfl, h.2.trans (by decide)⟩

/-- C4: with `retry_count = 3`, a run of three consecutive HTTP 429
responses causes exactly 3 request attempts with backoff delays `2^0 = 1`
then `2^1 = 2` seconds after the two non-final attempts, and `send`
returns `False`; an HTTP 401 on the first attempt returns `False` after
exactly one attempt with no backoff delay, whatever the remaining two
attempts would have observed and whatever the forwarding would return. -/
theorem c4_retry_schedule (e : Bool) (s1 s2 : Status) :
    apiSend [Status.rate429, Status.rate429, Status.rate429] e =
      ⟨3, [1, 2], none, false⟩ ∧
    apiSend [Status.auth401, s1, s2] e = ⟨1, [], none, false⟩ :=
  ⟨rfl, rfl⟩

/-- C5: for every dispatch over registered sinks, every sink is invoked —
a raising sink is caught and recorded as `False` without blocking the
rest, each sink's entry depending only on its own outcome — and
`MultiOutputHandler.send` returns `True` exactly when at least one sink's
`send()` returned `True`. -/
theorem c5_dispatch_isolation (sinks : List SinkOutcome) :
    (multiSendResults sinks).length = sinks.length ∧
    multiSendResults sinks = sinks.map outcomeResult ∧
    (multiSendRet sinks = true ↔ SinkOutcome.ok true ∈ sinks) := by
  refine ⟨?_, multiSendResults_eq_map sinks, ?_⟩
  · rw [multiSendResults_eq_map]; exact List.length_map sinks outcomeResult
  · unfold multiSendRet
    rw [multiSendResults_eq_map]
    induction sinks with
    | nil => simp
    | cons o rest ih =>
      simp only [List.map_cons, List.any_cons, id_eq, Bool.or_eq_true, ih,
        List.mem_cons]
      rw [outcomeResult_eq_true]
      constructor
      · rintro (h | h)
        · exact Or.inl h.symm
        · exact Or.inr h
      · rintro (h | h)
        · exact Or.inl h.symm
        · exact Or.inr h

/-- C8: the remote-inference `send` returns `True` exactly when an attempt
observes HTTP 200 before any 401 and before the attempts are exhausted,
and its return value is independent of the boolean the downstream
`esp32_handler.send` forwarding returns. -/
theorem c8_return_semantics (resp : List Status) (e e' : Bool) :
    (apiSend resp e).retval = (apiSend resp e').retval ∧
    ((apiSend resp e).retval = true ↔ apiSpecSuccess resp = true) := by
  constructor
  · rw [apiSend, apiSend, apiLoop_retval resp e 0, apiLoop_retval resp e' 0]
  · rw [apiSend, apiLoop_retval resp e 0]

/-- C3 counterexample: the watchdog fires while the engine is listening —
`_auto_stop_callback` only sets `_stop_event` (line 155), the capture loop
observes it and exits via line 250, and since neither the loop body nor
the watchdog touches the stream, the audio stream is still started at loop
exit, contrary to the claim that the stream is paused whenever the loop
exits. -/
theorem c3_counterexample :
    loopStep (auto_stop_callback (start_listening readyState).1) false =
      LoopOutcome.exitStopEvent ∧
    (auto_stop_callback (start_listening readyState).1).stream_active = true ∧
    (auto_stop_callback (start_listening readyState).1).is_listening = true := by
  decide

/-- C3 amended: the stream is paused at loop exit only when the exit is
driven by `stop_listening` (or `cleanup`), which itself stops the stream
before setting off the join; after `stop_listening` from a listening
state, the stream is stopped and every subsequent loop iteration exits on
the stop event.  An exit triggered solely by the watchdog (or by an I/O
error break) leaves the stream started until `stop_listening` is later
called. -/
theorem c3_amended_pause (s : EngineCore) (h : s.is_listening = true) :
    (stop_listening s).1.stream_active = false ∧
    ∀ ioFatal : Bool,
      loopStep (stop_listening s).1 ioFatal = LoopOutcome.exitStopEvent := by
  constructor
  · simp [stop_listening, h]
  · intro ioFatal
    simp [stop_listening, h, loopStep]

/-- Witness for C3's amended theorem: start listening from the ready
state, then stop. -/
theorem c3_witness :
    (start_listening readyState).1.is_listening = true ∧
    (stop_listening (start_listening readyState).1).1.stream_active = false ∧
    loopStep (stop_listening (start_listening readyState).1).1 false =
      LoopOutcome.exitStopEvent := by
  have h := c3_amended_pause (start_listening readyState).1 (by decide)
  exact ⟨by decide, h.1, h.2 false⟩

/-- C9: `stop_listening` is idempotent — from a listening state the first
call emits exactly one `"listening_stopped"`, and a second consecutive
call returns at the `is_listening` guard (lines 200-202), changing no
engine state and emitting nothing. -/
theorem c9_stop_idempotent (s : EngineCore) (h : s.is_listening = true) :
    (stop_listening s).2 = ["listening_stopped"] ∧
    (stop_listening (stop_listening s).1).1 = (stop_listening s).1 ∧
    (stop_listening (stop_listening s).1).2 = [] := by
  refine ⟨by simp [stop_listening, h], ?_, ?_⟩ <;> simp [stop_listening, h]

/-- Witness for C9 from the concrete listening state reached by
`start_listening` on the ready state. -/
theorem c9_witness :
    (start_listening readyState).1.is_listening = true ∧
    (stop_listening (stop_listening (start_listening readyState).1).1).1 =
      (stop_listening (start_listening readyState).1).1 ∧
    (stop_listening (stop_listening (start_listening readyState).1).1).2 = [] := by
  have h := c9_stop_idempotent (start_listening readyState).1 (by decide)
  exact ⟨by decide, h.2.1, h.2.2⟩

/-- C7 counterexample: for the input `""` — a text with no `\x7b...\x7d`
span at all — the fallback command equals the trimmed text `""`, which is
different from the sentinel, yet `send` does not offer it for
transmission: the falsy check of line 355 skips it, contrary to the claim
that the fallback is transmitted unless it equals the sentinel. -/
theorem c7_counterexample :
    jsonMatch (pyStrip "") = none ∧
    pyStrip "" = "" ∧
    ("" : String) ≠ "move0" ∧
    espDecide "" = none := by
  decide

/-- C7 amended: for every text with no `\x7b...\x7d` span, the command is
the whole trimmed text, and it is offered for transmission unless it
equals the sentinel or is empty (the falsy guard of line 355 also skips an
empty command). -/
theorem c7_amended_fallback (raw : String)
    (h : jsonMatch (pyStrip raw) = none) :
    espCommandToSend (pyStrip raw) = pyStrip raw ∧
    espDecide raw =
      (if pyStrip raw ≠ "" ∧ pyStrip raw ≠ "move0"
       then some (pyStrip raw) else none) := by
  have hc : espCommandToSend (pyStrip raw) = pyStrip raw := by
    simp [espCommandToSend, h]
  exact ⟨hc, by simp only [espDecide, hc]⟩

/-- Witness for C7's amended theorem at the documented scenario input
`"I am not sure"`: the raw trimmed text becomes the command and is offered
for transmission. -/
theorem c7_witness :
    jsonMatch (pyStrip "I am not sure") = none ∧
    espDecide "I am not sure" = some "I am not sure" := by
  have h := c7_amended_fallback "I am not sure" rfl
  exact ⟨rfl, h.2.trans (by decide)⟩

/-- C10: the console sink's `send` returns `True` for every event
(whenever formatting raises nothing, which the pure model always
satisfies), including events it displays nothing for — a partial event
with `show_partial = False`, or an unknown metadata type — and a dispatch
whose only registered sink is the console sink therefore reports success
even when nothing was displayed. -/
theorem c10_console_vacuous_success (cfg : ConsoleCfg) (text : String)
    (md : Option (List (String × String))) :
    (consoleSend cfg text md).2 = true ∧
    multiSendRet [SinkOutcome.ok (consoleSend cfg text md).2] = true ∧
    consoleSend ⟨false, true⟩ "hello" (some [("type", "partial")]) =
      (false, true) ∧
    consoleSend ⟨false, true⟩ "hello" (some [("type", "mystery")]) =
      (false, true) :=
  ⟨rfl, rfl, by decide, by decide⟩

/-- A contiguous substring that is a balanced JSON object: it starts with
`\x7b`, ends with `\x7d`, and decodes as a JSON object. -/
def isObjectSpan (t : List Char) : Bool :=
  match t with
  | [] => false
  | c :: _ =>
    c = '{' && (t.getLast? == some '}') &&
      (match jsonLoads (String.mk t) with
       | some (Json.obj _) => true
       | _ => false)

/-- All balanced-JSON-object substrings of a text (enumerated over all
contiguous substrings). -/
def objectSpans (s : String) : List (List Char) :=
  (s.toList.tails.map List.inits).flatten.filter isObjectSpan

/-- C6 counterexample text: a stray `\x7b` followed by one balanced JSON
object with a string `action` and a numeric `degree`. -/
def c6text : String := "\x7b \x7b\"action\":\"a\",\"degree\":1\x7d"

/-- The unique balanced JSON object contained in `c6text`. -/
def c6inner : String := "\x7b\"action\":\"a\",\"degree\":1\x7d"

/-- C6 counterexample: `c6text` contains exactly one balanced JSON object,
whose `action` key is the string `"a"` and whose `degree` key is the
number `1`, so the claim requires the translator to yield
`lower("a") ++ str(int(1)) = "a1"` — but the greedy regex of line 333
extracts the span from the first `\x7b` (the stray one) to the last
`\x7d`, that span fails to decode, and `send` falls back to transmitting
the whole text instead of `"a1"`. -/
theorem c6_counterexample :
    objectSpans c6text = [c6inner.toList] ∧
    jsonLoads c6inner =
      some (Json.obj [("action", Json.str "a"),
                      ("degree", Json.num ⟨false, [1], [], 0, true⟩)]) ∧
    pyLower "a" ++ toString (jsonNumTrunc ⟨false, [1], [], 0, true⟩) = "a1" ∧
    pyStrip c6text = c6text ∧
    espCommandToSend c6text = c6text ∧
    c6text ≠ "a1" :=
  ⟨by decide, rfl, by decide, by decide, rfl, by decide⟩

/-- C6 amended: for every text whose extracted span — from the first
`\x7b` to the last `\x7d`, as the greedy DOTALL regex of line 333 matches
— decodes as a JSON object whose `action` is a string and whose `degree`
is a number, the translator yields the lower-cased action concatenated
with the toward-zero integer truncation of the degree, with no range
clamping (the conclusion holds for every numeric degree value).  In
particular this covers every text where the single balanced object's
closing brace is the last `\x7d` of the text. -/
theorem c6_amended_translation (raw span : String)
    (fields : List (String × Json)) (a : String) (n : JsonNum)
    (_h1 : jsonMatch (pyStrip raw) = some span)
    (h2 : jsonLoads (pyStrip span) = some (Json.obj fields))
    (h3 : lookupLast fields "action" = some (Json.str a))
    (h4 : lookupLast fields "degree" = some (Json.num n)) :
    parse_json_to_command span = pyLower a ++ toString (jsonNumTrunc n) := by
  simp [parse_json_to_command, h2, h3, h4, pyStr, pyInt]

/-- Witness raw text for C6's amended theorem (the spec's own example,
wrapped in prose). -/
def c6wraw : String := "Sure: \x7b\"action\":\"Close\",\"degree\":20.7\x7d"

/-- The span the greedy regex extracts from `c6wraw`. -/
def c6wspan : String := "\x7b\"action\":\"Close\",\"degree\":20.7\x7d"

/-- The decoded fields of `c6wspan`. -/
def c6wfields : List (String × Json) :=
  [("action", Json.str "Close"),
   ("degree", Json.num ⟨false, [2, 0], [7], 0, false⟩)]

/-- Witness for C6's amended theorem: `\x7b"action":"Close","degree":20.7\x7d`
embedded in prose translates to `"close20"` (lower-casing and toward-zero
truncation, no clamping). -/
theorem c6_witness :
    jsonMatch (pyStrip c6wraw) = some c6wspan ∧
    jsonLoads (pyStrip c6wspan) = some (Json.obj c6wfields) ∧
    parse_json_to_command c6wspan = "close20" := by
  have h := c6_amended_translation c6wraw c6wspan c6wfields "Close"
    ⟨false, [2, 0], [7], 0, false⟩ rfl rfl rfl rfl
  exact ⟨rfl, rfl, h.trans (by decide)⟩

/-- Witness for C4 at concrete instantiations of the non-final attempt
outcomes and the forwarding boolean. -/
theorem c4_witness :
    apiSend [Status.rate429, Status.rate429, Status.rate429] false =
      ⟨3, [1, 2], none, false⟩ ∧
    apiSend [Status.auth401, Status.httpOther, Status.timeoutExc] false =
      ⟨1, [], none, false⟩ :=
  c4_retry_schedule false Status.httpOther Status.timeoutExc

/-- Witness for C5 on a concrete sink list where the first sink raises and
the second succeeds: both are recorded, and dispatch reports success. -/
theorem c5_witness :
    multiSendResults [SinkOutcome.raises, SinkOutcome.ok true] =
      [false, true] ∧
    multiSendRet [SinkOutcome.raises, SinkOutcome.ok true] = true := by
  have h := c5_dispatch_isolation [SinkOutcome.raises, SinkOutcome.ok true]
  exact ⟨h.2.1.trans (by decide), h.2.2.mpr (by decide)⟩

/-- Witness for C8 on a concrete schedule (a timeout, then a 200) and
both forwarding booleans. -/
theorem c8_witness :
    (apiSend [Status.timeoutExc, Status.ok200] true).retval =
      (apiSend [Status.timeoutExc, Status.ok200] false).retval ∧
    ((apiSend [Status.timeoutExc, Status.ok200] true).retval = true ↔
      apiSpecSuccess [Status.timeoutExc, Status.ok200] = true) :=
  c8_return_semantics [Status.timeoutExc, Status.ok200] true false

/-- Witness for C10 at concrete constructor flags, text and metadata. -/
theorem c10_witness :
    (consoleSend ⟨true, true⟩ "x" none).2 = true ∧
    multiSendRet [SinkOutcome.ok (consoleSend ⟨true, true⟩ "x" none).2] = true ∧
    consoleSend ⟨false, true⟩ "hello" (some [("type", "partial")]) =
      (false, true) ∧
    consoleSend ⟨false, true⟩ "hello" (some [("type", "mystery")]) =
      (false, true) :=
  c10_console_vacuous_success ⟨true, true⟩ "x" none
